import Mathlib

/-!
Verification of the `shared_var` variant class (src/shared_var.h).

The C++ class `shared_var` is a type-erased, value-semantic variant: a handle
owning a `std::shared_ptr<const holder_base>` to an immutable erased cell
`holder<T>` holding one value of a "holdable" type T.  Equality between cells
works by `dynamic_cast`-ing the other cell to `holder<T>` (same concrete T)
and then delegating to T's own `operator==`.

Shallow embedding choices:
* The universe of holdable concrete types instantiated by the claims and tests
  is modelled by the tag type `HTy` (int, double, bool, std::string,
  std::wstring); `double` is carried by `Rat` (its only used operation is exact
  `==`), `std::wstring` by `List Nat` (wide code units).
* An erased cell `holder<T>` together with its stored `value_` is the
  inductive `HVal`; the runtime type tag that `dynamic_cast` inspects is the
  constructor.  A successful `dynamic_cast<const holder<T>*>` corresponds to
  a constructor match on the tag `T`.
* The handle's `std::shared_ptr<const holder_base> p_` is `Option HVal`:
  cells are `const` (never written through `p_`), so sharing is observationally
  identical to holding the value, and `nullptr` is `none`.
* Mutation of a handle (assignment) is modelled functionally: each assignment
  operator takes the current handle and returns the new one.  Where the C++
  operator also returns a reference (`return *this;`), the model returns that
  result as a second component of type `Option shared_var`; `none` models an
  operator body that falls off the end without a return statement.
-/

namespace SharedVarModel

/-- Tags for the holdable concrete types exercised by the spec and tests
(`enable_if_holdable` admits them all: non-pointer, non-array, non-const,
non-reference value types). -/
inductive HTy where
  | intT
  | doubleT
  | boolT
  | stringT
  | wstringT
deriving DecidableEq, Repr

/-- The Lean carrier of each holdable C++ type.  `double` is carried by `Rat`
(the only operation the source ever applies to a held value is `==`),
`std::wstring` by its list of wide code units. -/
@[reducible] def HTy.denote : HTy → Type
  | .intT => Int
  | .doubleT => Rat
  | .boolT => Bool
  | .stringT => String
  | .wstringT => List Nat

/-- Value-initialized `T()` for each holdable type: `int()==0`, `double()==0.0`,
`bool()==false`, empty strings. -/
def HTy.defaultVal : (t : HTy) → t.denote
  | .intT => 0
  | .doubleT => 0
  | .boolT => false
  | .stringT => ""
  | .wstringT => []

/-- An erased cell `holder<T>` with its stored `value_` (shared_var.h lines
56-76): the constructor is the runtime type tag `T` that `dynamic_cast`
inspects, the argument is `value_`. -/
inductive HVal where
  | intV (n : Int)
  | doubleV (q : Rat)
  | boolV (b : Bool)
  | stringV (s : String)
  | wstringV (w : List Nat)
deriving DecidableEq, Repr

/-- The runtime type tag of an erased cell. -/
def HVal.ty : HVal → HTy
  | .intV _ => .intT
  | .doubleV _ => .doubleT
  | .boolV _ => .boolT
  | .stringV _ => .stringT
  | .wstringV _ => .wstringT

/-- Build the erased cell `holder<T>(x)` from a typed value. -/
def HVal.mk : (t : HTy) → t.denote → HVal
  | .intT, n => .intV n
  | .doubleT, q => .doubleV q
  | .boolT, b => .boolV b
  | .stringT, s => .stringV s
  | .wstringT, w => .wstringV w

/-- `dynamic_cast<const holder<T>*>(cell)` followed by reading `value_`:
`some` exactly when the cell's concrete type is `T`. -/
def HVal.get? : (t : HTy) → HVal → Option t.denote
  | .intT, .intV n => some n
  | .doubleT, .doubleV q => some q
  | .boolT, .boolV b => some b
  | .stringT, .stringV s => some s
  | .wstringT, .wstringV w => some w
  | _, _ => none

/-- `holder<T>::equals(const holder_base * rhs)` (shared_var.h lines 69-75):
downcast `rhs` to `holder<T>` (same tag); on failure return `false`, on
success return `rhs_downcast->value_ == value_` (note the source compares
the right value against the left one, in that order). -/
def holderEquals (self other : HVal) : Bool :=
  match self, other with
  | .intV a, .intV b => b == a
  | .doubleV a, .doubleV b => b == a
  | .boolV a, .boolV b => b == a
  | .stringV a, .stringV b => b == a
  | .wstringV a, .wstringV b => b == a
  | _, _ => false

/-- The handle: its single field is the shared pointer
`std::shared_ptr<const holder_base> p_` (line 78); `none` is `nullptr`. -/
structure shared_var where
  p_ : Option HVal
deriving DecidableEq, Repr

namespace shared_var

/-- `_hold` (lines 80-83): point `p_` at a brand-new cell
`make_shared<holder<T>>(move(val))`; never mutates an existing cell. -/
def _hold (_s : shared_var) (v : HVal) : shared_var :=
  ⟨some v⟩

/-- `_equals` (lines 86-94): both null → equal; both non-null → delegate to
the left cell's `equals`; otherwise unequal. -/
def _equals (s rhs : shared_var) : Bool :=
  match s.p_, rhs.p_ with
  | none, none => true
  | some a, some b => holderEquals a b
  | _, _ => false

/-- `_equals_val` (lines 96-108): null handle → `false`; downcast `p_` to
`holder<decay_t<T>>` where `T` is the static type of `rhs`; downcast failure →
`false`; else `p_downcast->value_ == rhs`. -/
def _equals_val (s : shared_var) (rhs : HVal) : Bool :=
  match s.p_ with
  | none => false
  | some a =>
    match a, rhs with
    | .intV x, .intV y => x == y
    | .doubleV x, .doubleV y => x == y
    | .boolV x, .boolV y => x == y
    | .stringV x, .stringV y => x == y
    | .wstringV x, .wstringV y => x == y
    | _, _ => false

/-- Default constructor `shared_var()` (lines 110-111): empty. -/
def mkDefault : shared_var := ⟨none⟩

/-- Copy constructor (lines 115-117) and copy assignment (lines 123-126):
share the erased cell, `p_ = rhs.p_`. -/
def copy (rhs : shared_var) : shared_var := ⟨rhs.p_⟩

/-- Move constructor (lines 119-121): `p_.swap(val.p_)` with a fresh empty
`p_`; returns (constructed handle, moved-from handle). -/
def moveCtor (rhs : shared_var) : shared_var × shared_var :=
  (⟨rhs.p_⟩, ⟨none⟩)

/-- Move assignment `operator=(shared_var&&)` (lines 128-131): `p_.swap(rhs.p_)`
— the two handles exchange cells; returns (new self, new rhs). -/
def moveAssign (self rhs : shared_var) : shared_var × shared_var :=
  (⟨rhs.p_⟩, ⟨self.p_⟩)

/-- `explicit shared_var(nullptr_t)` (lines 133-135): empty. -/
def mkNull : shared_var := ⟨none⟩

/-- `operator=(nullptr_t)` (lines 137-140): clear the reference. -/
def assignNull (_s : shared_var) : shared_var := ⟨none⟩

/-- `explicit shared_var(const char *)` (lines 143-146):
`_hold(std::basic_string<char>(rhs))` — erases an owned narrow string, never
the pointer. -/
def mkFromCStr (str : String) : shared_var :=
  _hold ⟨none⟩ (.stringV str)

/-- `explicit shared_var(const wchar_t *)` (lines 143-146, `CharT = wchar_t`):
erases an owned wide string. -/
def mkFromWCStr (w : List Nat) : shared_var :=
  _hold ⟨none⟩ (.wstringV w)

/-- `operator=(const CharT *)` for `CharT = char` (lines 148-152): `_hold` an
owned narrow string and `return *this`. -/
def assignCStr (s : shared_var) (str : String) : shared_var :=
  _hold s (.stringV str)

/-- `operator=(const CharT *)` for `CharT = wchar_t` (lines 148-152). -/
def assignWCStr (s : shared_var) (w : List Nat) : shared_var :=
  _hold s (.wstringV w)

/-- Generic value constructors `shared_var(const T&)` / `shared_var(T&&)`
(lines 155-163): both `_hold` a cell of the deduced (decayed) type holding the
value; the copy form first copies `T(val)`. -/
def mkFromVal (v : HVal) : shared_var :=
  _hold ⟨none⟩ v

/-- Generic copy assignment `operator=(const T&)` (lines 165-168): `_hold` a
copy of the value.  The body has NO return statement (the source lacks
`return *this;`), so the second component — the reference the expression
yields — is `none`. -/
def assignCopy (s : shared_var) (v : HVal) : shared_var × Option shared_var :=
  (_hold s v, none)

/-- Generic move assignment `operator=(T&&)` (lines 170-174): `_hold` the
moved value and `return *this`. -/
def assignMove (s : shared_var) (v : HVal) : shared_var × Option shared_var :=
  (_hold s v, some (_hold s v))

/-- `as<T>()` (lines 179-187): downcast `p_` to `holder<decay_t<T>>`; on
success return the held `value_`, otherwise the static value-initialized
`T()`. -/
def as (t : HTy) (s : shared_var) : t.denote :=
  match s.p_.bind (HVal.get? t) with
  | some x => x
  | none => t.defaultVal

/-- `as<T>(const T& def)` (lines 189-196): like `as<T>()` but the fallback is
the caller-supplied default. -/
def asOr (t : HTy) (s : shared_var) (d : t.denote) : t.denote :=
  match s.p_.bind (HVal.get? t) with
  | some x => x
  | none => d

/-- The query argument of `is<T>`: either `nullptr_t` or a holdable type. -/
inductive QTy where
  | nullT
  | ty (t : HTy)

/-- `is<T>()` (lines 198-205): for `T = nullptr_t`, report `p_ == nullptr`;
otherwise report whether the downcast of `p_` to `holder<decay_t<T>>`
succeeds. -/
def is (q : QTy) (s : shared_var) : Bool :=
  match q with
  | .nullT => s.p_.isNone
  | .ty t => (s.p_.bind (HVal.get? t)).isSome

/-- `empty()` (lines 207-209). -/
def empty (s : shared_var) : Bool := s.p_.isNone

end shared_var

/-! Free comparison operators (shared_var.h lines 212-281). -/

/-- `operator==(const shared_var&, const shared_var&)` (lines 212-214). -/
def eqVarVar (l r : shared_var) : Bool := l._equals r

/-- `operator!=(const shared_var&, const shared_var&)` (lines 216-218). -/
def neVarVar (l r : shared_var) : Bool := !(l._equals r)

/-- `operator==(const shared_var&, const T&)` (lines 223-226). -/
def eqVarVal (l : shared_var) (r : HVal) : Bool := l._equals_val r

/-- `operator!=(const shared_var&, const T&)` (lines 228-231). -/
def neVarVal (l : shared_var) (r : HVal) : Bool := !(l._equals_val r)

/-- `operator==(const T&, const shared_var&)` (lines 234-237). -/
def eqValVar (l : HVal) (r : shared_var) : Bool := r._equals_val l

/-- `operator!=(const T&, const shared_var&)` (lines 239-242). -/
def neValVar (l : HVal) (r : shared_var) : Bool := !(r._equals_val l)

/-- `operator==(nullptr_t, const shared_var&)` (lines 246-248). -/
def eqNullVar (r : shared_var) : Bool := r.empty

/-- `operator==(const shared_var&, nullptr_t)` (lines 250-252). -/
def eqVarNull (l : shared_var) : Bool := l.empty

/-- `operator!=(nullptr_t, const shared_var&)` (lines 254-256). -/
def neNullVar (r : shared_var) : Bool := !r.empty

/-- `operator!=(const shared_var&, nullptr_t)` (lines 258-260). -/
def neVarNull (l : shared_var) : Bool := !l.empty

/-- `operator==(const shared_var&, const char *)` (lines 263-266):
`lhs == std::basic_string<char>(rhs)`, i.e. delegate to the value form. -/
def eqVarCStr (l : shared_var) (r : String) : Bool := eqVarVal l (.stringV r)

/-- `operator==(const char *, const shared_var&)` (lines 268-271). -/
def eqCStrVar (l : String) (r : shared_var) : Bool := eqVarVal r (.stringV l)

/-- `operator!=(const shared_var&, const char *)` (lines 273-276). -/
def neVarCStr (l : shared_var) (r : String) : Bool := !(eqVarCStr l r)

/-- `operator!=(const char *, const shared_var&)` (lines 278-281). -/
def neCStrVar (l : String) (r : shared_var) : Bool := !(eqVarCStr r l)

/-- `operator==(const shared_var&, const wchar_t *)` (lines 263-266). -/
def eqVarWCStr (l : shared_var) (r : List Nat) : Bool := eqVarVal l (.wstringV r)

/-- `operator==(const wchar_t *, const shared_var&)` (lines 268-271). -/
def eqWCStrVar (l : List Nat) (r : shared_var) : Bool := eqVarVal r (.wstringV l)

/-- `operator!=(const shared_var&, const wchar_t *)` (lines 273-276). -/
def neVarWCStr (l : shared_var) (r : List Nat) : Bool := !(eqVarWCStr l r)

/-- `operator!=(const wchar_t *, const shared_var&)` (lines 278-281). -/
def neWCStrVar (l : List Nat) (r : shared_var) : Bool := !(eqVarWCStr r l)

/-! Helper lemmas shared across the claims. -/

theorem beqComm {α : Type} [BEq α] [LawfulBEq α] (a b : α) :
    (a == b) = (b == a) := by
  by_cases h : a = b
  · simp [h]
  · have h2 : ¬ b = a := fun hba => h hba.symm
    simp [h, h2]

theorem get?_mk (t : HTy) (x : t.denote) : HVal.get? t (HVal.mk t x) = some x := by
  cases t <;> rfl

theorem get?_mk_ne {t1 t2 : HTy} (h : t1 ≠ t2) (x : t1.denote) :
    HVal.get? t2 (HVal.mk t1 x) = none := by
  cases t1 <;> cases t2 <;> first | exact absurd rfl h | rfl

theorem holderEquals_mk_self (t : HTy) (x : t.denote) :
    holderEquals (HVal.mk t x) (HVal.mk t x) = true := by
  cases t <;> simp [HVal.mk, holderEquals]

theorem holderEquals_mk_ne {t1 t2 : HTy} (h : t1 ≠ t2)
    (x : t1.denote) (y : t2.denote) :
    holderEquals (HVal.mk t1 x) (HVal.mk t2 y) = false := by
  cases t1 <;> cases t2 <;> first | exact absurd rfl h | rfl

theorem holderEquals_comm (a b : HVal) :
    holderEquals a b = holderEquals b a := by
  cases a <;> cases b <;> first | rfl | exact beqComm _ _

theorem holderEquals_self (a : HVal) : holderEquals a a = true := by
  cases a <;> simp [holderEquals]

theorem _equals_val_mk_self (t : HTy) (x : t.denote) :
    shared_var._equals_val ⟨some (HVal.mk t x)⟩ (HVal.mk t x) = true := by
  cases t <;> simp [HVal.mk, shared_var._equals_val]

theorem _equals_val_self (v : HVal) :
    shared_var._equals_val ⟨some v⟩ v = true := by
  cases v <;> simp [shared_var._equals_val]

theorem _equals_val_mk_ne {t1 t2 : HTy} (h : t1 ≠ t2) (x : t1.denote) (y : t2.denote) :
    shared_var._equals_val ⟨some (HVal.mk t1 x)⟩ (HVal.mk t2 y) = false := by
  cases t1 <;> cases t2 <;> first | exact absurd rfl h | rfl

theorem holderEquals_mk_iff (t : HTy) (x y : t.denote) :
    holderEquals (HVal.mk t x) (HVal.mk t y) = true ↔ x = y := by
  cases t <;> simp only [HVal.mk, holderEquals, beq_iff_eq] <;> exact eq_comm

theorem _equals_comm (a b : shared_var) : a._equals b = b._equals a := by
  cases a with
  | mk pa =>
    cases b with
    | mk pb =>
      cases pa <;> cases pb <;> first | rfl | exact holderEquals_comm _ _

/-! The claims. -/

/-- C1: for every holdable type T and value v, a handle constructed from v
satisfies `is<T>() == true`, `as<T>() == v`, `handle == v` and `v == handle`. -/
theorem C1_construct_roundtrip (t : HTy) (x : t.denote) :
    (shared_var.mkFromVal (HVal.mk t x)).is (shared_var.QTy.ty t) = true ∧
    (shared_var.mkFromVal (HVal.mk t x)).as t = x ∧
    eqVarVal (shared_var.mkFromVal (HVal.mk t x)) (HVal.mk t x) = true ∧
    eqValVar (HVal.mk t x) (shared_var.mkFromVal (HVal.mk t x)) = true := by
  refine ⟨?_, ?_, ?_, ?_⟩
  · simp [shared_var.is, shared_var.mkFromVal, shared_var._hold, get?_mk]
  · simp [shared_var.as, shared_var.mkFromVal, shared_var._hold, get?_mk]
  · exact _equals_val_mk_self t x
  · exact _equals_val_mk_self t x

/-- C2: for distinct holdable types T1 ≠ T2, a handle holding a T1 value
compares unequal to any T2 value, cell or handle (never an error),
`is<T2>() == false`, and `as<T2>()` yields the fallback/default, never the
held T1 value reinterpreted. -/
theorem C2_cross_type_mismatch (t1 t2 : HTy) (hne : t1 ≠ t2)
    (x : t1.denote) (y : t2.denote) (d : t2.denote) :
    eqVarVal (shared_var.mkFromVal (HVal.mk t1 x)) (HVal.mk t2 y) = false ∧
    eqValVar (HVal.mk t2 y) (shared_var.mkFromVal (HVal.mk t1 x)) = false ∧
    eqVarVar (shared_var.mkFromVal (HVal.mk t1 x))
      (shared_var.mkFromVal (HVal.mk t2 y)) = false ∧
    holderEquals (HVal.mk t1 x) (HVal.mk t2 y) = false ∧
    (shared_var.mkFromVal (HVal.mk t1 x)).is (shared_var.QTy.ty t2) = false ∧
    (shared_var.mkFromVal (HVal.mk t1 x)).asOr t2 d = d ∧
    (shared_var.mkFromVal (HVal.mk t1 x)).as t2 = t2.defaultVal := by
  refine ⟨?_, ?_, ?_, ?_, ?_, ?_, ?_⟩
  · exact _equals_val_mk_ne hne x y
  · exact _equals_val_mk_ne hne x y
  · exact holderEquals_mk_ne hne x y
  · exact holderEquals_mk_ne hne x y
  · simp [shared_var.is, shared_var.mkFromVal, shared_var._hold, get?_mk_ne hne]
  · simp [shared_var.asOr, shared_var.mkFromVal, shared_var._hold, get?_mk_ne hne]
  · simp [shared_var.as, shared_var.mkFromVal, shared_var._hold, get?_mk_ne hne]

/-- Witness for C2 at T1 = int, T2 = std::string, x = 3, y = "a", d = "z". -/
theorem C2_witness :
    HTy.intT ≠ HTy.stringT ∧
    (eqVarVal (shared_var.mkFromVal (HVal.mk .intT 3)) (HVal.mk .stringT "a") = false ∧
     eqValVar (HVal.mk .stringT "a") (shared_var.mkFromVal (HVal.mk .intT 3)) = false ∧
     eqVarVar (shared_var.mkFromVal (HVal.mk .intT 3))
       (shared_var.mkFromVal (HVal.mk .stringT "a")) = false ∧
     holderEquals (HVal.mk .intT 3) (HVal.mk .stringT "a") = false ∧
     (shared_var.mkFromVal (HVal.mk .intT 3)).is (shared_var.QTy.ty .stringT) = false ∧
     (shared_var.mkFromVal (HVal.mk .intT 3)).asOr .stringT "z" = "z" ∧
     (shared_var.mkFromVal (HVal.mk .intT 3)).as .stringT = HTy.defaultVal .stringT) :=
  ⟨by decide, C2_cross_type_mismatch HTy.intT HTy.stringT (by decide) 3 "a" "z"⟩

/-- C3: `as<T>()` returns the held value when the handle holds exactly T;
otherwise the caller-supplied default (`as<T>(def)` returns `def`) or, with
none supplied, a value-initialized T.  Recovery is a total function: it never
throws or aborts on mismatch. -/
theorem C3_as_recovery_policy (t : HTy) (s : shared_var) (d : t.denote) :
    (∀ x : t.denote, s.p_ = some (HVal.mk t x) → s.as t = x ∧ s.asOr t d = x) ∧
    (s.is (shared_var.QTy.ty t) = false →
      s.as t = t.defaultVal ∧ s.asOr t d = d) := by
  constructor
  · intro x hx
    constructor <;> simp [shared_var.as, shared_var.asOr, hx, get?_mk]
  · intro hfalse
    have hnone : s.p_.bind (HVal.get? t) = none := by
      cases hbind : s.p_.bind (HVal.get? t) with
      | none => rfl
      | some y => simp [shared_var.is, hbind] at hfalse
    constructor <;> simp [shared_var.as, shared_var.asOr, hnone]

/-- Witness for C3: a handle holding int 5 recovers 5 both ways; a handle
holding double 3.0 recovers int's default 0 resp. the supplied default 7. -/
theorem C3_witness :
    ((⟨some (HVal.mk .intT 5)⟩ : shared_var).p_ = some (HVal.mk .intT 5) ∧
     ((⟨some (HVal.mk .intT 5)⟩ : shared_var).as .intT = 5 ∧
      (⟨some (HVal.mk .intT 5)⟩ : shared_var).asOr .intT 7 = 5)) ∧
    ((⟨some (HVal.doubleV 3)⟩ : shared_var).is (shared_var.QTy.ty .intT) = false ∧
     ((⟨some (HVal.doubleV 3)⟩ : shared_var).as .intT = HTy.defaultVal .intT ∧
      (⟨some (HVal.doubleV 3)⟩ : shared_var).asOr .intT 7 = 7)) :=
  ⟨⟨rfl, (C3_as_recovery_policy .intT ⟨some (HVal.mk .intT 5)⟩ 7).1 5 rfl⟩,
   ⟨rfl, (C3_as_recovery_policy .intT ⟨some (HVal.doubleV 3)⟩ 7).2 rfl⟩⟩

/-- C4 (code evaluation at the failing input): the generic copy assignment
`operator=(const T&)` (shared_var.h lines 165-168) installs the new cell
but its body has no `return *this;` — the expression's result (second
component) is `none`, unlike the move form `operator=(T&&)` which does
return the assigned handle.  In C++ flowing off the end of a value-returning
function is undefined behavior, so `h = v` with an lvalue `v` is not the
well-defined "result is the assigned handle" operation the spec states. -/
theorem C4_assign_copy_missing_return :
    (shared_var.assignCopy ⟨none⟩ (HVal.intV 5)).1 = ⟨some (HVal.intV 5)⟩ ∧
    (shared_var.assignCopy ⟨none⟩ (HVal.intV 5)).2 = none ∧
    (shared_var.assignMove ⟨none⟩ (HVal.intV 5)).2 = some ⟨some (HVal.intV 5)⟩ :=
  ⟨rfl, rfl, rfl⟩

/-- C5: handle-vs-handle equality is reflexive, symmetric, coincides with the
underlying value equality on handles holding the same type, distinguishes
distinct held types, and in particular int 3 ≠ double 3.0. -/
theorem C5_equality_laws :
    (∀ s : shared_var, eqVarVar s s = true) ∧
    (∀ a b : shared_var, eqVarVar a b = eqVarVar b a) ∧
    (∀ (t : HTy) (x y : t.denote),
      eqVarVar (shared_var.mkFromVal (HVal.mk t x))
        (shared_var.mkFromVal (HVal.mk t y)) = true ↔ x = y) ∧
    (∀ (t1 t2 : HTy), t1 ≠ t2 → ∀ (x : t1.denote) (y : t2.denote),
      eqVarVar (shared_var.mkFromVal (HVal.mk t1 x))
        (shared_var.mkFromVal (HVal.mk t2 y)) = false) ∧
    eqVarVar (shared_var.mkFromVal (HVal.intV 3))
      (shared_var.mkFromVal (HVal.doubleV 3)) = false := by
  refine ⟨?_, ?_, ?_, ?_, rfl⟩
  · intro s
    cases s with
    | mk p =>
      cases p with
      | none => rfl
      | some v => exact holderEquals_self v
  · intro a b
    exact _equals_comm a b
  · intro t x y
    exact holderEquals_mk_iff t x y
  · intro t1 t2 hne x y
    exact holderEquals_mk_ne hne x y

/-- Witness for C5 at the distinct-type clause: int 3 vs std::string "a". -/
theorem C5_witness :
    HTy.intT ≠ HTy.stringT ∧
    eqVarVar (shared_var.mkFromVal (HVal.mk .intT 3))
      (shared_var.mkFromVal (HVal.mk .stringT "a")) = false :=
  ⟨by decide, C5_equality_laws.2.2.2.1 HTy.intT HTy.stringT (by decide) 3 "a"⟩

/-- C6: a copy `b` of a handle `a` holding v satisfies `b == a` and `b == v`;
reassigning `a` (to another value, or to null) builds a brand-new cell or
clears `a`'s reference, and `b` still references the original cell holding v. -/
theorem C6_copy_then_reassign_frame (v w : HVal) :
    eqVarVar (shared_var.copy (shared_var.mkFromVal v)) (shared_var.mkFromVal v) = true ∧
    eqVarVal (shared_var.copy (shared_var.mkFromVal v)) v = true ∧
    ((shared_var.mkFromVal v).assignMove w).1.p_ = some w ∧
    ((shared_var.mkFromVal v).assignNull).p_ = none ∧
    (shared_var.copy (shared_var.mkFromVal v)).p_ = some v := by
  refine ⟨?_, ?_, rfl, rfl, rfl⟩
  · exact holderEquals_self v
  · exact _equals_val_self v

/-- C7: default-constructed, null-constructed and null-assigned handles are
all empty, equal to nullptr, and satisfy `is<nullptr_t>()`; two empty handles
compare equal; an empty and a non-empty handle compare unequal both ways. -/
theorem C7_empty_handles (s : shared_var) :
    (shared_var.mkDefault.empty = true ∧ shared_var.mkNull.empty = true ∧
     (shared_var.assignNull s).empty = true ∧
     eqVarNull shared_var.mkDefault = true ∧ eqNullVar shared_var.mkDefault = true ∧
     eqVarNull shared_var.mkNull = true ∧ eqNullVar shared_var.mkNull = true ∧
     eqVarNull (shared_var.assignNull s) = true ∧
     shared_var.mkDefault.is .nullT = true ∧ shared_var.mkNull.is .nullT = true ∧
     (shared_var.assignNull s).is .nullT = true) ∧
    (∀ e1 e2 : shared_var, e1.empty = true → e2.empty = true →
      eqVarVar e1 e2 = true) ∧
    (∀ e n : shared_var, e.empty = true → n.empty = false →
      eqVarVar e n = false ∧ eqVarVar n e = false) := by
  refine ⟨⟨rfl, rfl, rfl, rfl, rfl, rfl, rfl, rfl, rfl, rfl, rfl⟩, ?_, ?_⟩
  · intro e1 e2 h1 h2
    have p1 : e1.p_ = none := Option.isNone_iff_eq_none.mp h1
    have p2 : e2.p_ = none := Option.isNone_iff_eq_none.mp h2
    simp [eqVarVar, shared_var._equals, p1, p2]
  · intro e n h1 h2
    have p1 : e.p_ = none := Option.isNone_iff_eq_none.mp h1
    cases pn : n.p_ with
    | none => rw [shared_var.empty, pn] at h2; simp at h2
    | some v => constructor <;> simp [eqVarVar, shared_var._equals, p1, pn]

/-- Witness for C7: two empty handles are equal; empty vs a handle holding
int 1 is unequal both ways. -/
theorem C7_witness :
    eqVarVar ⟨none⟩ ⟨none⟩ = true ∧
    (eqVarVar ⟨none⟩ ⟨some (HVal.intV 1)⟩ = false ∧
     eqVarVar ⟨some (HVal.intV 1)⟩ ⟨none⟩ = false) :=
  ⟨(C7_empty_handles shared_var.mkDefault).2.1 ⟨none⟩ ⟨none⟩ rfl rfl,
   (C7_empty_handles shared_var.mkDefault).2.2 ⟨none⟩ ⟨some (HVal.intV 1)⟩ rfl rfl⟩

/-- C8: construction/assignment from a narrow or wide C-string erases an
owned string of the matching width, not a pointer: `is<std::string>()`,
equality with the literal and with the wrapped string value all hold;
likewise for `std::wstring`. -/
theorem C8_cstring_special_case (s : shared_var) (str : String) (w : List Nat) :
    (shared_var.mkFromCStr str).is (shared_var.QTy.ty .stringT) = true ∧
    eqVarCStr (shared_var.mkFromCStr str) str = true ∧
    eqCStrVar str (shared_var.mkFromCStr str) = true ∧
    eqVarVal (shared_var.mkFromCStr str) (HVal.stringV str) = true ∧
    (s.assignCStr str).p_ = some (HVal.stringV str) ∧
    (shared_var.mkFromWCStr w).is (shared_var.QTy.ty .wstringT) = true ∧
    eqVarWCStr (shared_var.mkFromWCStr w) w = true ∧
    eqWCStrVar w (shared_var.mkFromWCStr w) = true ∧
    eqVarVal (shared_var.mkFromWCStr w) (HVal.wstringV w) = true ∧
    (s.assignWCStr w).p_ = some (HVal.wstringV w) := by
  refine ⟨rfl, ?_, ?_, ?_, rfl, rfl, ?_, ?_, ?_, rfl⟩
  · exact _equals_val_self (HVal.stringV str)
  · exact _equals_val_self (HVal.stringV str)
  · exact _equals_val_self (HVal.stringV str)
  · exact _equals_val_self (HVal.wstringV w)
  · exact _equals_val_self (HVal.wstringV w)
  · exact _equals_val_self (HVal.wstringV w)

/-- C9: every comparison form is a total Boolean function, each mirrored
argument order agrees, and each `!=` is the negation of the matching `==` —
for handle/handle, handle/value, handle/null and handle/C-string (narrow and
wide) operands. -/
theorem C9_mirror_and_negation :
    (∀ l r : shared_var,
      eqVarVar l r = eqVarVar r l ∧ neVarVar l r = !(eqVarVar l r)) ∧
    (∀ (l : shared_var) (v : HVal),
      eqVarVal l v = eqValVar v l ∧ neVarVal l v = !(eqVarVal l v) ∧
      neValVar v l = !(eqValVar v l)) ∧
    (∀ l : shared_var,
      eqVarNull l = eqNullVar l ∧ neVarNull l = !(eqVarNull l) ∧
      neNullVar l = !(eqNullVar l)) ∧
    (∀ (l : shared_var) (str : String),
      eqVarCStr l str = eqCStrVar str l ∧ neVarCStr l str = !(eqVarCStr l str) ∧
      neCStrVar str l = !(eqCStrVar str l)) ∧
    (∀ (l : shared_var) (w : List Nat),
      eqVarWCStr l w = eqWCStrVar w l ∧ neVarWCStr l w = !(eqVarWCStr l w) ∧
      neWCStrVar w l = !(eqWCStrVar w l)) := by
  refine ⟨?_, ?_, ?_, ?_, ?_⟩
  · intro l r
    exact ⟨_equals_comm l r, rfl⟩
  · intro l v
    exact ⟨rfl, rfl, rfl⟩
  · intro l
    exact ⟨rfl, rfl, rfl⟩
  · intro l str
    exact ⟨rfl, rfl, rfl⟩
  · intro l w
    exact ⟨rfl, rfl, rfl⟩

/-- C10: move assignment `b = std::move(a)` swaps the two handles' cell
references: afterwards the moved-from handle references b's former cell
(it is not emptied, its old cell is b's now), so a non-empty b before the
move leaves a non-empty. -/
theorem C10_move_assign_swaps (b a : shared_var) :
    (shared_var.moveAssign b a).1.p_ = a.p_ ∧
    (shared_var.moveAssign b a).2.p_ = b.p_ ∧
    (b.empty = false → (shared_var.moveAssign b a).2.empty = false) :=
  ⟨rfl, rfl, fun h => h⟩

/-- Witness for C10: with b holding int 2 and a empty, after the swap the
moved-from a is non-empty. -/
theorem C10_witness :
    (⟨some (HVal.intV 2)⟩ : shared_var).empty = false ∧
    (shared_var.moveAssign ⟨some (HVal.intV 2)⟩ ⟨none⟩).2.empty = false :=
  ⟨rfl, (C10_move_assign_swaps ⟨some (HVal.intV 2)⟩ ⟨none⟩).2.2 rfl⟩

end SharedVarModel
